import Mathlib

/-!
Verification of the meeting-bot orchestrator against its specification.

The Python sources are shallowly embedded: strings are lists of characters,
`str.lower` is a character map, substring tests are list-infix tests, and the
stateful loops become explicit state-passing functions.  Each section names the
source file and function it embeds.
-/

set_option maxRecDepth 4000

namespace MeetingBot

/-! ## Python string primitives -/

/-- Whitespace characters recognised by Python `str.strip` / `str.split`
restricted to the ASCII range (space, tab, newline, carriage return,
vertical tab, form feed). -/
def isPyWhitespace (c : Char) : Bool :=
  decide (c.toNat = 32) || decide (c.toNat = 9) || decide (c.toNat = 10) ||
    decide (c.toNat = 13) || decide (c.toNat = 11) || decide (c.toNat = 12)

/-- Python `str.lower`, modelled on the ASCII range via `Char.toLower`. -/
def pyLower (s : List Char) : List Char := s.map Char.toLower

/-- Python `str.strip`: drop leading and trailing whitespace. -/
def pyStrip (s : List Char) : List Char :=
  ((s.dropWhile isPyWhitespace).reverse.dropWhile isPyWhitespace).reverse

/-- Python substring containment `needle in hay`. -/
def pyIn (needle hay : List Char) : Bool := decide (needle <:+: hay)

/-- A non-empty character list whose first and last characters are not
whitespace (true of every blacklist entry, after lowering). -/
def noWhitespaceEdges : List Char → Bool
  | [] => false
  | c :: rest =>
    !isPyWhitespace c &&
      (match (c :: rest).getLast? with
       | some d => !isPyWhitespace d
       | none => false)

/-- Python `str.split()` with no separator: split on whitespace runs,
discarding empty tokens. -/
def pySplit (s : List Char) : List (List Char) :=
  (s.splitOnP isPyWhitespace).filter (fun t => !t.isEmpty)

/-- Python `str.isupper()` on the ASCII range: at least one cased character
and no lowercase one. -/
def pyIsUpper (s : List Char) : Bool :=
  s.any (fun c => c.isAlpha) && s.all (fun c => !c.isLower)

/-- Python `str.startswith`. -/
def pyStartsWith (pre s : List Char) : Bool := pre.isPrefixOf s

/-- Python `str.endswith(".")`: the last character is a period. -/
def pyEndsWithDot (s : List Char) : Bool := s.getLast? == some '.'

/-! ## Embedding of `src/participant_name_filter.py` -/

/-- The hard blacklist `UI_NOTIFICATION_BLACKLIST` from
`src/participant_name_filter.py` lines 11-117, verbatim. -/
def UI_NOTIFICATION_BLACKLIST : List String :=
  [ "backgrounds and effects",
    "you can\x27t unmute someone else",
    "your microphone is off.",
    "your microphone is off",
    "you can\x27t remotely mute",
    "visual effects",
    "apply visual effects",
    "background blur",
    "blur background",
    "change background",
    "your camera is off",
    "microphone is off",
    "camera is off",
    "microphone is on",
    "camera is on",
    "mic is off",
    "mic is on",
    "can\x27t remotely mute",
    "can\x27t unmute",
    "remotely mute",
    "\x27s microphone",
    "turn on microphone",
    "turn off microphone",
    "turn on camera",
    "turn off camera",
    "mute microphone",
    "unmute microphone",
    "present now",
    "stop presenting",
    "share screen",
    "stop sharing",
    "raise hand",
    "lower hand",
    "end call",
    "leave call",
    "leave meeting",
    "end meeting",
    "in the meeting",
    "contributors",
    "add people",
    "search for people",
    "invite",
    "share link",
    "host controls",
    "meeting details",
    "other people",
    "in this call",
    "people in this call",
    "you\x27re the only one",
    "waiting for others",
    "connecting",
    "reconnecting",
    "joining",
    "loading",
    "settings",
    "options",
    "more options",
    "more actions",
    "send a message",
    "chat",
    "activities",
    "captions",
    "subtitles",
    "recording",
    "breakout rooms",
    "layout",
    "tiled",
    "spotlight",
    "sidebar",
    "auto",
    "allow",
    "deny",
    "grant",
    "permission",
    "access",
    "enable",
    "disable",
    "denied",
    "blocked",
    "turn on",
    "turn off",
    "mute",
    "unmute",
    "join now",
    "ask to join",
    "present" ]

/-- `UI_NOTIFICATION_PATTERNS = UI_NOTIFICATION_BLACKLIST`
(`participant_name_filter.py` line 120). -/
def UI_NOTIFICATION_PATTERNS : List String := UI_NOTIFICATION_BLACKLIST

/-- Embedding of `is_valid_participant_name` from
`src/participant_name_filter.py` lines 123-195.  Every early `return False`
of the source becomes a `false` branch, in source order. -/
def is_valid_participant_name (name : String) : Bool :=
  if name.data.isEmpty then false
  else
    let name_lower := pyLower (pyStrip name.data)
    if name_lower.isEmpty then false
    else if UI_NOTIFICATION_BLACKLIST.any (fun b =>
        pyLower b.data == name_lower || pyIn (pyLower b.data) name_lower) then false
    else if UI_NOTIFICATION_PATTERNS.any (fun p =>
        pyIn (pyLower p.data) name_lower) then false
    else if pyStartsWith ("your ".data) name_lower ||
        pyStartsWith ("you ".data) name_lower then false
    else if pyIn ("can\x27t".data) name_lower ||
        pyIn ("cannot".data) name_lower then false
    else if pyIn ("\x27s microphone".data) name_lower ||
        pyIn ("\x27s camera".data) name_lower then false
    else if name.data.count '.' > 1 && (pySplit name.data).length > 4 then false
    else if pyEndsWithDot name_lower && (pySplit name.data).length > 4 then false
    else if name_lower.length < 2 then false
    else if name.data.length > 100 then false
    else if !(name.data.any Char.isAlpha) then false
    else if pyIsUpper name.data && name.data.any Char.isDigit then false
    else true

/-- Embedding of `clean_participant_name` from
`src/participant_name_filter.py` lines 198-222. -/
def clean_participant_name (name : String) : Option String :=
  if name.data.isEmpty then none
  else
    let cleaned := pyStrip name.data
    let cleaned :=
      if (" (You)".data).isSuffixOf cleaned then
        pyStrip (cleaned.take (cleaned.length - 6))
      else cleaned
    if is_valid_participant_name ⟨cleaned⟩ then some ⟨cleaned⟩ else none

/-! ## Embedding of `src/meeting_summary_builder.py` (bot classification) -/

/-- The per-entry `is_bot` computation inside
`MeetingSummaryBuilder.build_summary`, `src/meeting_summary_builder.py`
lines 53-84.  `history_is_bot` is `data.get("is_bot", False)`; the integer
comparisons `2 * a >= b` encode the exact float comparisons
`len(x) >= len(y) * 0.5` of the source (`n * 0.5` is exactly representable).
-/
def summary_is_bot (history_is_bot : Bool) (original_name name : String)
    (detected_bot_name : Option String) (bot_identifiers : List String) : Bool :=
  if history_is_bot then true
  else if !original_name.data.isEmpty &&
      pyIn ("(you)".data) (pyLower original_name.data) then true
  else if (match detected_bot_name with
      | some d => !d.data.isEmpty && pyLower name.data == pyLower d.data
      | none => false) then true
  else if bot_identifiers.any (fun i => i.data == pyLower name.data) then true
  else
    let name_lower := pyLower name.data
    bot_identifiers.any (fun identifier =>
      identifier.data.length ≥ 3 &&
      (pyIn identifier.data name_lower || pyIn name_lower identifier.data) &&
      (2 * identifier.data.length ≥ name_lower.length ||
        2 * name_lower.length ≥ identifier.data.length))

/-! ## Embedding of `src/audio.py` (`AudioCaptureLoop.run`) -/

/-- Little-endian 16-bit encoding of a number, as written by the `wave`
module. -/
def le16 (n : Nat) : List Nat := [n % 256, n / 256 % 256]

/-- Little-endian 32-bit encoding of a number. -/
def le32 (n : Nat) : List Nat :=
  [n % 256, n / 256 % 256, n / 65536 % 256, n / 16777216 % 256]

/-- The 44-byte canonical RIFF/WAVE header written by `wave.open` for a
mono 16-bit stream (`_generate_silence_wav` sets one channel, two byte
sample width). -/
def wavHeader (numFrames sampleRate : Nat) : List Nat :=
  let dataSize := 2 * numFrames
  [0x52, 0x49, 0x46, 0x46] ++ le32 (36 + dataSize) ++
  [0x57, 0x41, 0x56, 0x45, 0x66, 0x6d, 0x74, 0x20] ++ le32 16 ++
  le16 1 ++ le16 1 ++ le32 sampleRate ++ le32 (2 * sampleRate) ++
  le16 2 ++ le16 16 ++ [0x64, 0x61, 0x74, 0x61] ++ le32 dataSize

/-- Embedding of `_generate_silence_wav` (`src/audio.py` lines 19-28):
header plus `b"\x00\x00" * num_frames`. -/
def _generate_silence_wav (duration_seconds sample_rate : Nat) : List Nat :=
  wavHeader (duration_seconds * sample_rate) sample_rate ++
    List.replicate (2 * (duration_seconds * sample_rate)) 0

/-- One published event: its type and the keys of its payload dictionary,
in source order. -/
structure PyEvent where
  etype : String
  payloadKeys : List String
  chunkNumber : Nat
  deriving Repr, DecidableEq

/-- Environment of one iteration of `AudioCaptureLoop.run`: the outcome of
the real-capture-and-validation block (lines 89-155, `none` when capture is
unavailable, failed, or produced a chunk shorter than one second, so that
`audio_bytes` is falsy afterwards), whether the storage upload at line
179 succeeds, and whether `analyze_chunk` would return a non-empty speaker
list in the `else` branch of line 209. -/
structure AudioIterEnv where
  capturedValid : Option (List Nat)
  saveSucceeds : Bool
  diarizedSpeakers : Bool

/-- Result of one iteration of the `while` body of `AudioCaptureLoop.run`
(`src/audio.py` lines 78-233). -/
structure AudioIterResult where
  events : List PyEvent
  diarizerCalled : Bool
  counter : Nat
  deriving Repr, DecidableEq

/-- Embedding of one iteration of `AudioCaptureLoop.run`
(`src/audio.py` lines 78-233).  `counter` is `self.chunk_counter` at the top
of the iteration; the silent-WAV fallback of line 159 replaces a falsy
`audio_bytes`, then lines 176-231 branch on truthiness of `audio_bytes`,
and line 233 increments the counter unconditionally. -/
def audioCaptureIter (chunk_interval_seconds : Nat) (counter : Nat)
    (env : AudioIterEnv) : AudioIterResult :=
  let audio_bytes : List Nat :=
    match env.capturedValid with
    | some b => if b.isEmpty then _generate_silence_wav chunk_interval_seconds 16000 else b
    | none => _generate_silence_wav chunk_interval_seconds 16000
  if !audio_bytes.isEmpty then
    if env.saveSucceeds then
      { events := [{ etype := "audio_chunk_created",
                     payloadKeys := ["chunk_id", "meeting_id", "session_id",
                                     "local_path", "blob_path", "timestamp"],
                     chunkNumber := counter }],
        diarizerCalled := false,
        counter := counter + 1 + 1 }
    else
      { events := [], diarizerCalled := false, counter := counter + 1 }
  else
    { events := if env.diarizedSpeakers then
        [{ etype := "active_speaker",
           payloadKeys := ["chunk_id", "meeting_id", "session_id",
                           "speaker_label", "confidence", "timestamp"],
           chunkNumber := counter }]
      else [],
      diarizerCalled := true,
      counter := counter + 1 }

/-- Running `AudioCaptureLoop.run` over a list of per-iteration
environments, threading `self.chunk_counter` from zero and concatenating
the published events. -/
def audioCaptureRun : Nat → List AudioIterEnv → Nat → List PyEvent × Bool × Nat
  | _, [], counter => ([], false, counter)
  | interval, env :: rest, counter =>
    let r := audioCaptureIter interval counter env
    let (evs, dia, c) := audioCaptureRun interval rest r.counter
    (r.events ++ evs, r.diarizerCalled || dia, c)

/-! ## Embedding of `src/audio_chunk_manager.py`
(`ImprovedAudioCaptureLoop`) -/

/-- Embedding of `ImprovedAudioCaptureLoop._capture_audio_bytes`
(`src/audio_chunk_manager.py` lines 255-267): real capture is used when it
yields more than 1000 bytes, otherwise the silent WAV fallback. -/
def improved_capture_audio_bytes (chunk_interval_seconds sample_rate : Nat)
    (captured : Option (List Nat)) : List Nat :=
  match captured with
  | some b => if b.length > 1000 then b else
      _generate_silence_wav chunk_interval_seconds sample_rate
  | none => _generate_silence_wav chunk_interval_seconds sample_rate

/-- Embedding of `ImprovedAudioCaptureLoop._capture_and_process_chunk`
(`src/audio_chunk_manager.py` lines 159-253): when `audio_bytes` is falsy
the chunk is skipped without consuming a number (line 179), otherwise the
`audio_chunk_complete` event is published with the payload of lines
218-233 and the counter is incremented once (line 253). -/
def improvedCaptureIter (chunk_interval_seconds sample_rate : Nat)
    (counter : Nat) (captured : Option (List Nat)) :
    List PyEvent × Nat :=
  let audio_bytes := improved_capture_audio_bytes chunk_interval_seconds
    sample_rate captured
  if audio_bytes.isEmpty then ([], counter)
  else
    ([{ etype := "audio_chunk_complete",
        payloadKeys := ["chunk_id", "chunk_number", "meeting_id", "session_id",
                        "start_timestamp", "end_timestamp", "duration_seconds",
                        "audio_file_path", "filename", "participants",
                        "participant_count", "real_participant_count",
                        "active_speaker", "all_speakers"],
        chunkNumber := counter }],
     counter + 1)

/-- Running the improved loop over a list of capture outcomes. -/
def improvedCaptureRun (interval rate : Nat) :
    List (Option (List Nat)) → Nat → List PyEvent × Nat
  | [], counter => ([], counter)
  | captured :: rest, counter =>
    let (evs, c) := improvedCaptureIter interval rate counter captured
    let (evs2, c2) := improvedCaptureRun interval rate rest c
    (evs ++ evs2, c2)

/-! ## Embedding of `src/meeting_end_detector.py`
(`MeetingEndDetector.wait_for_meeting_end`, lines 30-132) -/

/-- What one 5-second poll of the detector observes: the results of
`_check_meeting_ended`, `_check_disconnected` and `_check_meeting_empty`. -/
structure PollObs where
  meetingEnded : Bool
  disconnected : Bool
  meetingEmpty : Bool
  deriving Repr, DecidableEq

/-- Why `wait_for_meeting_end` returned. -/
inductive EndReason
  | explicitEnd
  | disconnection
  | emptyMeeting
  deriving Repr, DecidableEq

/-- Embedding of the `while True` loop of `wait_for_meeting_end`
(`src/meeting_end_detector.py` lines 51-118) over a finite trace of poll
observations.  `cnt` is `consecutive_empty_checks`; `max_empty_checks` is 3.
Returns the exit reason together with the number of polls consumed, or
`none` when the trace ends with the loop still running. -/
def detectorSteps (cnt : Nat) : List PollObs → Option (EndReason × Nat)
  | [] => none
  | o :: rest =>
    if o.meetingEnded then some (.explicitEnd, 1)
    else if o.disconnected then some (.disconnection, 1)
    else if o.meetingEmpty then
      if cnt + 1 ≥ 3 then some (.emptyMeeting, 1)
      else (detectorSteps (cnt + 1) rest).map (fun r => (r.1, r.2 + 1))
    else (detectorSteps 0 rest).map (fun r => (r.1, r.2 + 1))

/-- A poll on which the meeting is classified empty but not ended or
disconnected. -/
def emptyPoll : PollObs :=
  { meetingEnded := false, disconnected := false, meetingEmpty := true }

/-- The property claimed of empty-meeting termination, in the words of the
specification: the empty classification must hold on three consecutive
5-second polls, and after that tier fires, a further fresh re-extraction
(one more consumed observation, after a 15-second sleep) must still find
the meeting empty — so any termination for emptiness consumes at least
four observations. -/
def claimEmptyTerminationNeedsConfirm : Prop :=
  ∀ (cnt : Nat) (obs : List PollObs) (n : Nat),
    detectorSteps cnt obs = some (.emptyMeeting, n) → 4 ≤ n

/-! ## Embedding of the roster loop `participants_loop`
(`src/session_manager.py` lines 216-608) -/

/-- One roster entry as returned by `flow.read_participants`: the fields
the loop reads via `p.get("name", "")`, `p.get("original_name", ...)` and
`p.get("is_bot", False)`. -/
structure RawParticipant where
  name : String
  original_name : Option String
  is_bot_flag : Bool
  deriving Repr, DecidableEq

/-- Names bound in the local scope of `participants_loop` (every name the
function assigns, including `for` targets, `import` targets inside the
body and exception names), read off `src/session_manager.py`
lines 216-608. -/
def participantsLoopLocals : List String :=
  [ "participants", "real_participants", "bot_participants", "get_settings",
    "settings", "bot_display_name", "p", "name", "is_bot", "original_name",
    "num_real_participants", "num_bot_participants", "total_participants",
    "should_leave", "remaining_is_bot", "remaining_name", "cleaned_remaining",
    "verification_passed", "verification_checks", "participants_check1",
    "total_check1", "real_check1", "num_real_check1", "participants_again",
    "real_participants_again", "bot_participants_again", "name_lower",
    "is_ui_element", "ui_patterns", "pattern", "num_real_again",
    "num_bot_again", "total_again", "remaining_is_bot_again",
    "remaining_name_again", "cleaned_remaining_again", "final_should_leave",
    "MeetingEndDetector", "detector", "e", "now_iso", "current_names", "rec" ]

/-- Names bound in the enclosing scope `_run_session_loops`
(`src/session_manager.py` lines 202-615). -/
def runSessionLoopsLocals : List String :=
  [ "session", "flow", "page", "stop_event", "audio_loop",
    "ClosedCaptionsExtractor", "cc_extractor", "participants_loop",
    "audio_task", "participants_task" ]

/-- Module-level names of `src/session_manager.py`: its imports (lines
1-23) and top-level definitions. -/
def sessionManagerGlobals : List String :=
  [ "asyncio", "re", "uuid", "dataclass", "field", "datetime", "timezone",
    "Dict", "List", "Optional", "Page", "AudioCaptureLoop", "get_settings",
    "event_publisher", "get_local_storage", "get_logger", "MeetingFlow",
    "GoogleMeetFlow", "GoogleMeetFlowEnhanced", "TeamsFlow",
    "TeamsFlowEnhanced", "Platform", "SessionStatus", "PlaywrightManager",
    "get_enhanced_manager", "get_profile_manager", "logger", "TEAMS_URL_RE",
    "GMEET_URL_RE", "MeetingSession", "SessionManager", "session_manager" ]

/-- The Python builtins a bare name could fall back to (the standard
builtin namespace; every builtin referenced anywhere in the module is
included). -/
def pyBuiltins : List String :=
  [ "len", "list", "set", "dict", "tuple", "str", "int", "float", "bool",
    "max", "min", "sum", "sorted", "range", "enumerate", "zip", "map",
    "filter", "hasattr", "getattr", "setattr", "isinstance", "print",
    "repr", "any", "all", "abs", "round", "open", "type", "id", "iter",
    "next", "Exception", "ValueError", "TypeError", "NameError",
    "KeyError", "AttributeError", "RuntimeError", "StopIteration", "None",
    "True", "False" ]

/-- Python name resolution for a bare name occurring inside
`participants_loop`: local scope, then the enclosing function, then module
globals, then builtins. -/
def pyNameResolves (n : String) : Bool :=
  participantsLoopLocals.contains n || runSessionLoopsLocals.contains n ||
    sessionManagerGlobals.contains n || pyBuiltins.contains n

/-- The real/bot split of `participants_loop` lines 232-252: entries with
an empty stripped name are skipped; an entry is a bot when its `is_bot`
flag is set, or its original name (defaulting to the stripped name)
contains `(you)` case-insensitively, or its stripped name equals the
configured bot display name case-insensitively.  Returns
`(real_participants, bot_participants)`. -/
def classifyMain (bot_display_name : String) :
    List RawParticipant → List RawParticipant × List RawParticipant
  | [] => ([], [])
  | p :: rest =>
    let (real, bot) := classifyMain bot_display_name rest
    let name := pyStrip p.name.data
    if name.isEmpty then (real, bot)
    else
      let original_name := (p.original_name.getD ⟨name⟩).data
      let is_bot := p.is_bot_flag ||
        (if !original_name.isEmpty && pyIn ("(you)".data) (pyLower original_name)
          then true
          else pyLower name == pyLower bot_display_name.data)
      if is_bot then (real, p :: bot) else (p :: real, bot)

/-- Decision of `participants_loop` lines 280-333 on the initial poll:
`ok true` means `should_leave` was set; `error m` means evaluating the
unbound name `m` raised `NameError` (line 325 calls
`clean_participant_name`, which is not imported by
`src/session_manager.py`). -/
def rosterShouldLeaveInit (bot_display_name : String)
    (participants : List RawParticipant) : Except String Bool :=
  let real_participants := (classifyMain bot_display_name participants).1
  let num_real_participants := real_participants.length
  let total_participants := participants.length
  if total_participants > 1 then .ok false
  else if num_real_participants > 0 then .ok false
  else
    match participants with
    | [] => .ok (num_real_participants == 0 && total_participants == 0)
    | [p0] =>
      let remaining_name := pyStrip p0.name.data
      if pyIn ("(You)".data) remaining_name then
        .ok (num_real_participants == 0 && total_participants == 1)
      else if pyNameResolves "clean_participant_name" then
        .ok false
      else .error "clean_participant_name"
    | _ => .ok false

/-- The immediate re-extraction check of lines 358-385: found people when
the second extraction has more than one row or any row whose raw name does
not contain `(You)`. -/
def rosterRecheckFoundPeople (participants_check1 : List RawParticipant) : Bool :=
  participants_check1.length > 1 ||
    (participants_check1.filter
      (fun p => !(pyIn ("(You)".data) p.name.data))).length > 0

/-- The post-sleep re-classification of lines 409-436: entries with an
empty stripped name are skipped; a name containing `(You)` is a bot; of
the rest, those matching none of the six hard-coded UI patterns are real.
Returns `(real_participants_again, bot_participants_again)`. -/
def classifyConfirm :
    List RawParticipant → List RawParticipant × List RawParticipant
  | [] => ([], [])
  | p :: rest =>
    let (real, bot) := classifyConfirm rest
    let name := pyStrip p.name.data
    if name.isEmpty then (real, bot)
    else if pyIn ("(You)".data) name then (real, p :: bot)
    else
      let name_lower := pyLower name
      let is_ui_element :=
        [ "backgrounds and effects", "you can\x27t unmute",
          "your microphone is off", "your camera is off", "settings",
          "more options" ].any (fun pat : String => pyIn pat.data name_lower)
      if is_ui_element then (real, bot) else (p :: real, bot)

/-- The final decision of lines 457-474 on the post-sleep extraction
(`final_should_leave`); `error` again marks the `NameError` from the
unbound `clean_participant_name` at line 464. -/
def rosterFinalShouldLeave (participants_again : List RawParticipant) :
    Except String Bool :=
  let num_real_again := (classifyConfirm participants_again).1.length
  let total_again := participants_again.length
  match participants_again with
  | [] => .ok (total_again ≤ 1 && num_real_again == 0 && total_again == 0)
  | [p0] =>
    let remaining_name_again := pyStrip p0.name.data
    if pyIn ("(You)".data) remaining_name_again then
      .ok (total_again ≤ 1 && num_real_again == 0 && total_again == 1)
    else if pyNameResolves "clean_participant_name" then
      .ok false
    else .error "clean_participant_name"
  | _ => .ok false

/-- The three roster extractions one iteration of `participants_loop` can
perform: the initial poll (line 219), the immediate re-check (line 358)
and the post-sleep confirmation (line 405). -/
structure RosterEnv where
  poll : List RawParticipant
  recheck : List RawParticipant
  confirm : List RawParticipant
  deriving Repr

/-- How one iteration of `participants_loop` ends before reaching line
595. -/
inductive RosterPath
  | crash (missing : String)
  | leave
  | publishNow
  deriving Repr, DecidableEq

/-- Control-flow skeleton of one iteration of `participants_loop`
(`src/session_manager.py` lines 217-593): either a `NameError` is raised
while computing a leave decision, or the loop breaks at line 547 after a
confirmed-empty meeting, or control falls through to the
`participant_update` publish at line 595. -/
def rosterPath (bot_display_name : String) (env : RosterEnv) : RosterPath :=
  match rosterShouldLeaveInit bot_display_name env.poll with
  | .error m => .crash m
  | .ok false => .publishNow
  | .ok true =>
    if rosterRecheckFoundPeople env.recheck then .publishNow
    else
      match rosterFinalShouldLeave env.confirm with
      | .error m => .crash m
      | .ok true => .leave
      | .ok false => .publishNow

/-- Outcome of one full iteration of `participants_loop`. -/
inductive RosterOutcome
  | leftMeeting
  | nameError (missing : String)
  | published
  deriving Repr, DecidableEq

/-- The `participant_update` publish at `src/session_manager.py` lines
595-604: building the payload evaluates the bare name
`other_participants` (line 601), which succeeds only if that name
resolves. -/
def publishParticipantUpdate : RosterOutcome :=
  if pyNameResolves "other_participants" then .published
  else .nameError "other_participants"

/-- One iteration of `participants_loop`. -/
def rosterIter (bot_display_name : String) (env : RosterEnv) : RosterOutcome :=
  match rosterPath bot_display_name env with
  | .crash m => .nameError m
  | .leave => .leftMeeting
  | .publishNow => publishParticipantUpdate

/-- The roster loop over a stream of per-iteration extraction results:
an iteration that completes its publish waits 30 seconds and loops;
any other outcome ends the loop (a break, or an uncaught exception
propagating out of the coroutine).  Returns the number of iterations run
and the last outcome. -/
def participantsLoopRun (bot_display_name : String) :
    List RosterEnv → Nat × Option RosterOutcome
  | [] => (0, none)
  | env :: rest =>
    match rosterIter bot_display_name env with
    | .published =>
      let (n, o) := participantsLoopRun bot_display_name rest
      (n + 1, o.orElse (fun _ => some .published))
    | o => (1, some o)

/-! ## Embedding of session admission
(`src/session_manager.py` lines 29-104 and `src/main.py` lines 52-108) -/

/-- The `Platform` enum of `src/models.py`. -/
inductive Platform
  | teams
  | gmeet
  deriving Repr, DecidableEq

/-- The `SessionStatus` enum of `src/models.py`. -/
inductive SessionStatus
  | created
  | joining
  | in_meeting
  | ended
  | failed
  deriving Repr, DecidableEq

/-- `TEAMS_URL_RE.match(url)` for the pattern
`https://teams\.microsoft\.com/.*` with `re.IGNORECASE`
(`src/session_manager.py` line 29): an anchored, case-insensitive prefix
match of the literal part (the trailing `.*` never fails a prefix
match). -/
def TEAMS_URL_RE_match (url : String) : Bool :=
  pyStartsWith ("https://teams.microsoft.com/".data) (pyLower url.data)

/-- `GMEET_URL_RE.match(url)` for `https://meet\.google\.com/.*` with
`re.IGNORECASE` (`src/session_manager.py` line 30). -/
def GMEET_URL_RE_match (url : String) : Bool :=
  pyStartsWith ("https://meet.google.com/".data) (pyLower url.data)

/-- Whether a URL matches the platform-specific host pattern. -/
def platformURLMatches (p : Platform) (url : String) : Bool :=
  match p with
  | .teams => TEAMS_URL_RE_match url
  | .gmeet => GMEET_URL_RE_match url

/-- Embedding of `SessionManager._validate_meeting_url`
(`src/session_manager.py` lines 100-104); the error is the `ValueError`
message raised. -/
def _validate_meeting_url (platform : Platform) (meeting_url : String) :
    Except String Unit :=
  if platform == .teams && !TEAMS_URL_RE_match meeting_url then
    .error "Invalid Teams meeting URL"
  else if platform == .gmeet && !GMEET_URL_RE_match meeting_url then
    .error "Invalid Google Meet URL"
  else .ok ()

/-- The `MeetingSession` dataclass fields the admission path touches
(`src/session_manager.py` lines 33-49). -/
structure MeetingSession where
  meeting_id : String
  platform : Platform
  meeting_url : String
  session_id : String
  status : SessionStatus
  deriving Repr, DecidableEq

/-- The observable `SessionManager` state for admission: the session
table `_sessions`, the FIFO `_queue` and the events published so far. -/
structure SMState where
  sessions : List (String × MeetingSession)
  queue : List String
  published : List String
  deriving Repr, DecidableEq

/-- Embedding of `SessionManager.enqueue_session`
(`src/session_manager.py` lines 68-98).  `fresh_session_id` stands for the
freshly drawn `uuid4`.  The first component is the raised `ValueError`
message, if any; validation runs before any mutation, so on failure the
state is returned untouched. -/
def enqueue_session (st : SMState) (fresh_session_id meeting_id : String)
    (platform : Platform) (meeting_url : String) :
    Option String × SMState :=
  match _validate_meeting_url platform meeting_url with
  | .error e => (some e, st)
  | .ok () =>
    let session : MeetingSession :=
      { meeting_id, platform, meeting_url,
        session_id := fresh_session_id, status := .created }
    (none,
      { sessions := st.sessions ++ [(fresh_session_id, session)],
        queue := st.queue ++ [fresh_session_id],
        published := st.published ++ ["bot_joined"] })

/-- The HTTP response of the `/join-meeting` endpoint. -/
structure JoinHTTPResponse where
  status : Nat
  code : String
  session_id : Option String
  deriving Repr, DecidableEq

/-- Embedding of the `join_meeting` handler (`src/main.py` lines 52-108):
a `ValueError` from `enqueue_session` becomes HTTP 400 with code
`INVALID_MEETING_URL`; success returns the session id. -/
def join_meeting (st : SMState) (fresh_session_id meeting_id : String)
    (platform : Platform) (meeting_url : String) :
    JoinHTTPResponse × SMState :=
  match enqueue_session st fresh_session_id meeting_id platform meeting_url with
  | (some _, st') =>
    ({ status := 400, code := "INVALID_MEETING_URL", session_id := none }, st')
  | (none, st') =>
    ({ status := 200, code := "", session_id := some fresh_session_id }, st')

/-! ## The dispatcher and its concurrency bound
(`src/session_manager.py` lines 52-132) -/

/-- One session as the scheduler sees it: its status and whether the task
running it currently holds a semaphore permit (acquired by `_worker` at
line 109, released by `_run_session_wrapper` at line 132). -/
structure SchedSession where
  status : SessionStatus
  holdsPermit : Bool
  deriving Repr, DecidableEq

/-- Scheduler state: the session list and the free-permit count of
`asyncio.Semaphore(settings.max_concurrent_sessions)`. -/
structure SchedState where
  sessions : List SchedSession
  available : Nat
  deriving Repr, DecidableEq

/-- Interleaved steps of the admission path, the `_worker` dispatch loop
and the per-session runner `_run_session_wrapper` / `_run_session`
(`src/session_manager.py` lines 106-132 and 143-200).  Status updates
follow the source: a session becomes `joining` (line 155) and then
`in_meeting` (lines 170/188) only inside `_run_session`, hence only while
its task holds a permit; the wrapper marks `failed` on any exception
(line 116) and releases the permit in its `finally` (line 132) after a
terminal status is recorded. -/
inductive SchedStep : SchedState → SchedState → Prop
  | admitSession (st : SchedState) :
      SchedStep st { st with sessions := st.sessions ++
        [{ status := .created, holdsPermit := false }] }
  | dispatch (pre post : List SchedSession) (a : Nat) :
      SchedStep
        { sessions := pre ++ { status := .created, holdsPermit := false } :: post,
          available := a + 1 }
        { sessions := pre ++ { status := .created, holdsPermit := true } :: post,
          available := a }
  | startJoining (pre post : List SchedSession) (a : Nat) :
      SchedStep
        { sessions := pre ++ { status := .created, holdsPermit := true } :: post,
          available := a }
        { sessions := pre ++ { status := .joining, holdsPermit := true } :: post,
          available := a }
  | joined (pre post : List SchedSession) (a : Nat) :
      SchedStep
        { sessions := pre ++ { status := .joining, holdsPermit := true } :: post,
          available := a }
        { sessions := pre ++ { status := .in_meeting, holdsPermit := true } :: post,
          available := a }
  | endSession (pre post : List SchedSession) (a : Nat) :
      SchedStep
        { sessions := pre ++ { status := .in_meeting, holdsPermit := true } :: post,
          available := a }
        { sessions := pre ++ { status := .ended, holdsPermit := true } :: post,
          available := a }
  | failSession (pre post : List SchedSession) (s : SessionStatus) (a : Nat) :
      SchedStep
        { sessions := pre ++ { status := s, holdsPermit := true } :: post,
          available := a }
        { sessions := pre ++ { status := .failed, holdsPermit := true } :: post,
          available := a }
  | releasePermit (pre post : List SchedSession) (s : SessionStatus) (a : Nat) :
      (s = .ended ∨ s = .failed) →
      SchedStep
        { sessions := pre ++ { status := s, holdsPermit := true } :: post,
          available := a }
        { sessions := pre ++ { status := s, holdsPermit := false } :: post,
          available := a + 1 }

/-- The scheduler starts with an empty session table and
`max_concurrent_sessions` free permits. -/
def schedInit (maxConcurrent : Nat) : SchedState :=
  { sessions := [], available := maxConcurrent }

/-- States reachable from the initial scheduler state by any schedule. -/
inductive SchedReachable (maxConcurrent : Nat) : SchedState → Prop
  | init : SchedReachable maxConcurrent (schedInit maxConcurrent)
  | step {s s' : SchedState} :
      SchedReachable maxConcurrent s → SchedStep s s' →
      SchedReachable maxConcurrent s'

/-- Whether a session counts against the concurrency bound of the claim. -/
def isActiveSession (s : SchedSession) : Bool :=
  s.status == .joining || s.status == .in_meeting

/-- The number of sessions in status `joining` or `in_meeting`. -/
def activeCount (st : SchedState) : Nat :=
  st.sessions.countP isActiveSession

/-- The inductive invariant of the scheduler: permits are conserved, and
every session in a non-terminal running status holds one. -/
def schedInv (maxConcurrent : Nat) (st : SchedState) : Prop :=
  st.available + st.sessions.countP (fun s => s.holdsPermit) = maxConcurrent ∧
  ∀ s ∈ st.sessions, isActiveSession s = true → s.holdsPermit = true

/-! ## Embedding of `src/google_auth/persistent_profile.py`
(`PersistentProfileManager`) -/

/-- One directory under `profiles_root`: its name and whether it contains
any of the `Default` / `Preferences` / `Local State` entries that
`list_profiles` checks for (`persistent_profile.py` line 62).  A directory
made by `create_profile` (a bare `mkdir`) has none of them. -/
structure ProfileDir where
  name : String
  looksLikeProfile : Bool
  deriving Repr, DecidableEq

/-- Profile-manager state: the directories on disk and the
`_active_sessions` map `session_id -> profile_name`. -/
structure PMState where
  dirs : List ProfileDir
  active : List (String × String)
  deriving Repr, DecidableEq

/-- `list_profiles` (`persistent_profile.py` lines 53-64): the sorted
names of directories that look like browser profiles. -/
def list_profiles (st : PMState) : List String :=
  ((st.dirs.filter (fun d => d.looksLikeProfile)).map
    (fun d => d.name)).insertionSort (fun a b => a ≤ b)

/-- `create_profile` (`persistent_profile.py` lines 66-79): `mkdir` with
`exist_ok=True`; a fresh directory contains no browser files. -/
def create_profile (st : PMState) (profile_name : String) : PMState :=
  if st.dirs.any (fun d => d.name == profile_name) then st
  else { st with dirs := st.dirs ++ [⟨profile_name, false⟩] }

/-- The `is_available` field computed by `get_profile_status`
(`persistent_profile.py` lines 81-93): for an existing directory it is
`profile_name not in self._active_sessions.values()` (line 84); for a
missing directory the early return at line 88 reports `is_available=True`
unconditionally. -/
def get_profile_status_is_available (st : PMState) (profile_name : String) : Bool :=
  if st.dirs.any (fun d => d.name == profile_name) then
    !(st.active.any (fun kv => kv.2 == profile_name))
  else true

/-- The auto-increment search of `allocate_profile` lines 205-221: the
first `google_{n}` not in `all_profiles`; `fuel` bounds the loop (a bound
of `all_profiles.length + 1` always suffices). -/
def freshGoogleName (all_profiles : List String) : Nat → Nat → String
  | n, 0 => "google_" ++ toString n
  | n, fuel + 1 =>
    if all_profiles.contains ("google_" ++ toString n) then
      freshGoogleName all_profiles (n + 1) fuel
    else "google_" ++ toString n

/-- Embedding of `allocate_profile` (`persistent_profile.py` lines
141-221): take the preferred profile if available, else the configured
main profile if available, else the first available listed profile, else
create and take a fresh `google_{n}`.  Returns the new state and the
profile assigned to `session_id`. -/
def allocate_profile (st : PMState) (session_id : String)
    (prefer_profile : Option String) (gmeet_profile_name : String) :
    PMState × String :=
  let preferTaken : Option String :=
    match prefer_profile with
    | some pf => if get_profile_status_is_available st pf then some pf else none
    | none => none
  match preferTaken with
  | some pf => ({ st with active := st.active ++ [(session_id, pf)] }, pf)
  | none =>
    if get_profile_status_is_available st gmeet_profile_name then
      ({ st with active := st.active ++ [(session_id, gmeet_profile_name)] },
        gmeet_profile_name)
    else
      let all_profiles := list_profiles st
      match all_profiles.find? (fun p => get_profile_status_is_available st p) with
      | some p => ({ st with active := st.active ++ [(session_id, p)] }, p)
      | none =>
        let new_profile_name :=
          freshGoogleName all_profiles 1 (all_profiles.length + 1)
        let st' := create_profile st new_profile_name
        ({ st' with active := st'.active ++ [(session_id, new_profile_name)] },
          new_profile_name)

/-- `release_profile` (`persistent_profile.py` lines 223-235). -/
def release_profile (st : PMState) (session_id : String) : PMState :=
  { st with active := st.active.filter (fun kv => kv.1 != session_id) }

/-- How many sessions currently hold a given profile. -/
def profileHolders (st : PMState) (profile_name : String) : Nat :=
  (st.active.filter (fun kv => kv.2 == profile_name)).length

/-! ## Character-level lemmas -/

theorem toNat_ofNat_of_valid {n : Nat} (h : n.isValidChar) :
    (Char.ofNat n).toNat = n := by
  rw [Char.ofNat, dif_pos h]
  rfl

theorem toNat_toLower (c : Char) :
    (Char.toLower c).toNat =
      if 65 ≤ c.toNat ∧ c.toNat ≤ 90 then c.toNat + 32 else c.toNat := by
  unfold Char.toLower
  split
  · next h =>
    rw [if_pos h]
    exact toNat_ofNat_of_valid (Or.inl (by omega))
  · next h => rw [if_neg h]

theorem isPyWhitespace_toLower (c : Char) :
    isPyWhitespace (Char.toLower c) = isPyWhitespace c := by
  simp only [isPyWhitespace, toNat_toLower]
  split
  · next h =>
    obtain ⟨h1, h2⟩ := h
    apply Eq.trans (b := false)
    · simp only [Bool.or_eq_false_iff, decide_eq_false_iff_not]
      omega
    · symm
      simp only [Bool.or_eq_false_iff, decide_eq_false_iff_not]
      omega
  · rfl

/-! ## Infix and strip lemmas -/

theorem infix_dropWhile_of_head {p : Char → Bool} {c0 : Char}
    {l s : List Char} (h : (c0 :: l) <:+: s) (hc : p c0 = false) :
    (c0 :: l) <:+: s.dropWhile p := by
  induction s with
  | nil => simp at h
  | cons a s ih =>
    by_cases ha : p a = true
    · rw [List.dropWhile_cons, if_pos ha]
      apply ih
      rcases List.infix_cons_iff.mp h with hpre | hinf
      · obtain ⟨t, ht⟩ := hpre
        have : c0 = a := by
          have := congrArg (fun x => x.head?) ht
          simpa using this
        rw [this] at hc
        rw [hc] at ha
        cases ha
      · exact hinf
    · rw [List.dropWhile_cons, if_neg ha]
      exact h

theorem infix_pyStrip_of_edges {l s : List Char} (h : l <:+: s)
    (he : noWhitespaceEdges l = true) : l <:+: pyStrip s := by
  match l, he with
  | c0 :: l', he =>
    simp only [noWhitespaceEdges, Bool.and_eq_true, Bool.not_eq_true'] at he
    obtain ⟨hc0, hlast⟩ := he
    have h1 : (c0 :: l') <:+: s.dropWhile isPyWhitespace :=
      infix_dropWhile_of_head h hc0
    have h2 : (c0 :: l').reverse <:+: (s.dropWhile isPyWhitespace).reverse :=
      List.reverse_infix.mpr h1
    obtain ⟨c1, hc1, hc1w⟩ : ∃ c1, ((c0 :: l').getLast? = some c1) ∧
        isPyWhitespace c1 = false := by
      cases hgl : (c0 :: l').getLast? with
      | none => simp at hgl
      | some d =>
        rw [hgl] at hlast
        simp only [Bool.not_eq_true'] at hlast
        exact ⟨d, rfl, hlast⟩
    obtain ⟨t, ht⟩ : ∃ t, (c0 :: l').reverse = c1 :: t := by
      cases hrev : (c0 :: l').reverse with
      | nil => simp at hrev
      | cons x xs =>
        refine ⟨xs, ?_⟩
        have hx : (c0 :: l').reverse.head? = some x := by rw [hrev]; rfl
        rw [List.head?_reverse] at hx
        rw [hc1] at hx
        cases hx
        rfl
    rw [ht] at h2
    have h3 : (c1 :: t) <:+:
        ((s.dropWhile isPyWhitespace).reverse).dropWhile isPyWhitespace :=
      infix_dropWhile_of_head h2 hc1w
    have h4 := List.reverse_infix.mpr h3
    rw [← ht] at h4
    rw [List.reverse_reverse] at h4
    exact h4

theorem dropWhile_map_toLower (l : List Char) :
    (l.map Char.toLower).dropWhile isPyWhitespace =
      (l.dropWhile isPyWhitespace).map Char.toLower := by
  have hp : (isPyWhitespace ∘ Char.toLower) = isPyWhitespace := by
    funext c
    exact isPyWhitespace_toLower c
  rw [List.dropWhile_map, hp]

theorem pyLower_pyStrip (s : List Char) :
    pyLower (pyStrip s) = pyStrip (pyLower s) := by
  unfold pyLower pyStrip
  rw [dropWhile_map_toLower, ← List.map_reverse, dropWhile_map_toLower,
    ← List.map_reverse]

theorem blacklist_edges :
    ∀ e ∈ UI_NOTIFICATION_BLACKLIST,
      noWhitespaceEdges (pyLower e.data) = true := by decide

/-- C10: for every string that contains any blacklist entry as a
case-insensitive substring (for example `chat`, `mute`, `auto`,
`present`), `is_valid_participant_name` returns false, so genuine
participant names containing such substrings (e.g. `Chatterjee`) are
rejected and dropped from the roster. -/
theorem c10_blacklist_substring_rejected (name entry : String)
    (hmem : entry ∈ UI_NOTIFICATION_BLACKLIST)
    (hsub : pyLower entry.data <:+: pyLower name.data) :
    is_valid_participant_name name = false := by
  have hedges := blacklist_edges entry hmem
  have hstrip : pyLower entry.data <:+: pyLower (pyStrip name.data) := by
    rw [pyLower_pyStrip]
    exact infix_pyStrip_of_edges hsub hedges
  have hany : (UI_NOTIFICATION_BLACKLIST.any fun b =>
      pyLower b.data == pyLower (pyStrip name.data) ||
        pyIn (pyLower b.data) (pyLower (pyStrip name.data))) = true := by
    rw [List.any_eq_true]
    refine ⟨entry, hmem, ?_⟩
    rw [Bool.or_eq_true]
    right
    rw [pyIn, decide_eq_true_eq]
    exact hstrip
  rw [is_valid_participant_name]
  by_cases h0 : name.data.isEmpty = true
  · rw [if_pos h0]
  · rw [if_neg h0]
    by_cases h1 : (pyLower (pyStrip name.data)).isEmpty = true
    · rw [if_pos h1]
    · rw [if_neg h1, if_pos hany]

/-- C10 witness: the genuine name `Chatterjee` contains the blacklist
entry `chat` and is rejected. -/
theorem c10_witness :
    is_valid_participant_name "Chatterjee" = false :=
  c10_blacklist_substring_rejected "Chatterjee" "chat"
    (by decide) (by decide)

/-- C8: for every roster entry whose `original_name` contains the
substring `(you)` in any letter case, and for every identifier list and
every (possibly absent) session-detected bot name, the summary-builder
bot classification returns true for that entry. -/
theorem c8_you_suffix_forces_bot (history_is_bot : Bool)
    (original_name name : String) (detected_bot_name : Option String)
    (bot_identifiers : List String)
    (h : pyIn ("(you)".data) (pyLower original_name.data) = true) :
    summary_is_bot history_is_bot original_name name detected_bot_name
      bot_identifiers = true := by
  rw [summary_is_bot.eq_def]
  by_cases hflag : history_is_bot = true
  · rw [if_pos hflag]
  · rw [if_neg hflag]
    have hne : original_name.data.isEmpty = false := by
      cases ho : original_name.data with
      | nil =>
        rw [ho] at h
        simp [pyIn, pyLower] at h
      | cons c cs => rfl
    rw [if_pos (by rw [hne, h]; rfl)]

/-- C8 witness: an entry whose original name is `Meeting Bot (You)` is
classified as the bot for an empty identifier list, no detected bot name
and a clear history flag. -/
theorem c8_witness :
    summary_is_bot false "Meeting Bot (You)" "Meeting Bot" none [] = true :=
  c8_you_suffix_forces_bot false "Meeting Bot (You)" "Meeting Bot" none []
    (by decide)

theorem silence_wav_not_empty (d r : Nat) :
    (_generate_silence_wav d r).isEmpty = false := rfl

theorem audioCaptureIter_no_diarize (interval counter : Nat)
    (env : AudioIterEnv) :
    (audioCaptureIter interval counter env).diarizerCalled = false ∧
      ((audioCaptureIter interval counter env).events.all
        (fun e => e.etype == "audio_chunk_created")) = true := by
  rw [audioCaptureIter]
  have hbytes : (match env.capturedValid with
      | some b => if b.isEmpty then _generate_silence_wav interval 16000 else b
      | none => _generate_silence_wav interval 16000).isEmpty = false := by
    cases hcv : env.capturedValid with
    | none => exact silence_wav_not_empty interval 16000
    | some b =>
      by_cases hb : b.isEmpty = true
      · simp only [if_pos hb]
        exact silence_wav_not_empty interval 16000
      · simp only [if_neg hb]
        exact Bool.not_eq_true _ ▸ hb
  rw [hbytes]
  by_cases hs : env.saveSucceeds = true
  · rw [if_pos (by rfl), if_pos hs]
    exact ⟨rfl, rfl⟩
  · rw [if_pos (by rfl), if_neg hs]
    exact ⟨rfl, rfl⟩

/-- C9: after the silent-WAV fallback is substituted, `audio_bytes` is
always non-empty at the save/diarize branch, so the `else` branch that
calls `analyze_chunk` and publishes an `active_speaker` event is
unreachable: over any run of the audio capture loop the diarizer is never
invoked and no `active_speaker` event is emitted. -/
theorem c9_diarizer_unreachable (interval counter : Nat)
    (envs : List AudioIterEnv) :
    (audioCaptureRun interval envs counter).2.1 = false ∧
      ((audioCaptureRun interval envs counter).1.all
        (fun e => e.etype != "active_speaker")) = true := by
  induction envs generalizing counter with
  | nil => exact ⟨rfl, rfl⟩
  | cons env rest ih =>
    obtain ⟨hdia, hevs⟩ := audioCaptureIter_no_diarize interval counter env
    obtain ⟨ihdia, ihevs⟩ :=
      ih (audioCaptureIter interval counter env).counter
    rw [audioCaptureRun]
    constructor
    · simp only [hdia, ihdia, Bool.or_self]
    · rw [List.all_append]
      refine Bool.and_eq_true_iff.mpr ⟨?_, ihevs⟩
      rw [List.all_eq_true] at hevs ⊢
      intro e he
      have := hevs e he
      simp only [beq_iff_eq] at this
      simp [this]

/-- C1: evaluating `AudioCaptureLoop.run` on a failing schedule.  Two
iterations, each with a validated real capture and a successful save,
emit chunk identifiers numbered `0` and `2` (numbers are consumed twice
per valid chunk, once at line 182 and once at line 233 of
`src/audio.py`), leaving the counter at `4`; a fallback silent-placeholder
iteration also consumes a number.  This contradicts the claimed gap-free
`0, 1, 2, ...` numbering in which placeholders consume nothing. -/
theorem c1_chunk_numbers_have_gaps :
    ((audioCaptureRun 30
        [{ capturedValid := some [1], saveSucceeds := true, diarizedSpeakers := false },
         { capturedValid := some [1], saveSucceeds := true, diarizedSpeakers := false }]
        0).1.map (fun e => e.chunkNumber) = [0, 2]) ∧
      ((audioCaptureRun 30
        [{ capturedValid := some [1], saveSucceeds := true, diarizedSpeakers := false },
         { capturedValid := some [1], saveSucceeds := true, diarizedSpeakers := false }]
        0).2.2 = 4) ∧
      ((audioCaptureIter 30 0
        { capturedValid := none, saveSucceeds := true,
          diarizedSpeakers := false }).counter = 2) :=
  ⟨rfl, rfl, rfl⟩

/-- C4 counterexample: a valid audio chunk recorded and saved by
`AudioCaptureLoop.run` (the loop the session manager wires in) is
announced with an event of type `audio_chunk_created`, not
`audio_chunk_complete`, and its payload carries neither `chunk_number`
nor the other keys of the claimed schema. -/
theorem c4_counterexample :
    ((audioCaptureIter 30 0
        { capturedValid := some [1], saveSucceeds := true,
          diarizedSpeakers := false }).events.map (fun e => e.etype) =
      ["audio_chunk_created"]) ∧
      ((audioCaptureIter 30 0
        { capturedValid := some [1], saveSucceeds := true,
          diarizedSpeakers := false }).events.all
        (fun e => !(e.etype == "audio_chunk_complete") &&
          !(e.payloadKeys.contains "chunk_number"))) = true := by
  constructor
  · rfl
  · decide

/-- C4 (amended): over any run of `ImprovedAudioCaptureLoop`
(`src/audio_chunk_manager.py`), every processed chunk is announced with
an `audio_chunk_complete` event whose payload has exactly the keys
`chunk_id, chunk_number, meeting_id, session_id, start_timestamp,
end_timestamp, duration_seconds, audio_file_path, filename, participants,
participant_count, real_participant_count, active_speaker, all_speakers`,
and the chunk numbers are consecutive starting from the initial
counter. -/
theorem c4_amended_improved_loop_event (interval rate : Nat)
    (captured : List (Option (List Nat))) (counter : Nat) :
    ((improvedCaptureRun interval rate captured counter).1.map
        (fun e => (e.etype, e.payloadKeys)) =
      List.replicate captured.length
        ("audio_chunk_complete",
          ["chunk_id", "chunk_number", "meeting_id", "session_id",
           "start_timestamp", "end_timestamp", "duration_seconds",
           "audio_file_path", "filename", "participants",
           "participant_count", "real_participant_count",
           "active_speaker", "all_speakers"])) ∧
      ((improvedCaptureRun interval rate captured counter).1.map
        (fun e => e.chunkNumber) =
      List.range' counter captured.length) := by
  induction captured generalizing counter with
  | nil => exact ⟨rfl, rfl⟩
  | cons c rest ih =>
    have hone : improvedCaptureIter interval rate counter c =
        ([{ etype := "audio_chunk_complete",
            payloadKeys := ["chunk_id", "chunk_number", "meeting_id",
              "session_id", "start_timestamp", "end_timestamp",
              "duration_seconds", "audio_file_path", "filename",
              "participants", "participant_count",
              "real_participant_count", "active_speaker", "all_speakers"],
            chunkNumber := counter }], counter + 1) := by
      rw [improvedCaptureIter]
      have hbytes : (improved_capture_audio_bytes interval rate c).isEmpty
          = false := by
        cases c with
        | none => exact silence_wav_not_empty interval rate
        | some b =>
          show ((if b.length > 1000 then b
            else _generate_silence_wav interval rate)).isEmpty = false
          by_cases hb : b.length > 1000
          · rw [if_pos hb]
            cases b with
            | nil => simp at hb
            | cons x xs => rfl
          · rw [if_neg hb]
            exact silence_wav_not_empty interval rate
      rw [hbytes]
      rfl
    obtain ⟨ih1, ih2⟩ := ih (counter + 1)
    rw [improvedCaptureRun]
    rw [hone]
    constructor
    · simp only [List.map_append, List.map_cons, List.map_nil,
        List.length_cons, List.replicate_succ, ih1]
      rfl
    · simp only [List.map_append, List.map_cons, List.map_nil,
        List.length_cons, List.range'_succ, ih2]
      rfl

/-- C2 counterexample: the end detector terminates for emptiness after
three consecutive empty 5-second polls having consumed exactly three
observations — there is no further 15-second confirmation re-extraction,
so the claimed conjunction of tier 1 and tier 2 is false for
`MeetingEndDetector.wait_for_meeting_end`. -/
theorem c2_counterexample : ¬ claimEmptyTerminationNeedsConfirm := by
  intro h
  have h3 : detectorSteps 0 [emptyPoll, emptyPoll, emptyPoll] =
      some (.emptyMeeting, 3) := rfl
  have := h 0 [emptyPoll, emptyPoll, emptyPoll] 3 h3
  omega

theorem detectorSteps_empty_needs_three (obs : List PollObs) :
    ∀ (cnt n : Nat),
      detectorSteps cnt obs = some (.emptyMeeting, n) → 3 ≤ cnt + n := by
  induction obs with
  | nil => intro cnt n h; cases h
  | cons o rest ih =>
    intro cnt n h
    rw [detectorSteps] at h
    by_cases h1 : o.meetingEnded = true
    · rw [if_pos h1] at h
      cases h
    · rw [if_neg h1] at h
      by_cases h2 : o.disconnected = true
      · rw [if_pos h2] at h
        cases h
      · rw [if_neg h2] at h
        by_cases h3 : o.meetingEmpty = true
        · rw [if_pos h3] at h
          by_cases h4 : cnt + 1 ≥ 3
          · rw [if_pos h4] at h
            injection h with h
            injection h with _ hn
            omega
          · rw [if_neg h4] at h
            rw [Option.map_eq_some'] at h
            obtain ⟨r, hr, hrn⟩ := h
            have hr' : detectorSteps (cnt + 1) rest =
                some (.emptyMeeting, r.2) := by
              rw [hr]
              have : r.1 = .emptyMeeting := by
                have := congrArg Prod.fst hrn
                exact this.symm ▸ rfl
              rw [← this]
            have := ih (cnt + 1) r.2 hr'
            have hn2 : n = r.2 + 1 := (congrArg Prod.snd hrn).symm
            omega
        · rw [if_neg h3] at h
          rw [Option.map_eq_some'] at h
          obtain ⟨r, hr, hrn⟩ := h
          have hr' : detectorSteps 0 rest = some (.emptyMeeting, r.2) := by
            rw [hr]
            have : r.1 = .emptyMeeting := by
              have := congrArg Prod.fst hrn
              exact this.symm ▸ rfl
            rw [← this]
          have := ih 0 r.2 hr'
          have hn2 : n = r.2 + 1 := (congrArg Prod.snd hrn).symm
          omega

theorem rosterShouldLeaveInit_ok_true (bot_display_name : String)
    (ps : List RawParticipant)
    (h : rosterShouldLeaveInit bot_display_name ps = .ok true) :
    ps.length ≤ 1 ∧ (classifyMain bot_display_name ps).1.length = 0 := by
  simp only [rosterShouldLeaveInit] at h
  split at h
  · cases h
  · split at h
    · cases h
    · next h1 h2 => exact ⟨by omega, by omega⟩

theorem rosterFinalShouldLeave_ok_true (ps : List RawParticipant)
    (h : rosterFinalShouldLeave ps = .ok true) :
    ps.length ≤ 1 ∧ (classifyConfirm ps).1.length = 0 := by
  simp only [rosterFinalShouldLeave] at h
  split at h
  · exact ⟨by simp, rfl⟩
  · next p0 =>
    split at h
    · injection h with hval
      rw [Bool.and_eq_true, Bool.and_eq_true] at hval
      obtain ⟨⟨_, hreal⟩, _⟩ := hval
      exact ⟨by simp, by simpa using hreal⟩
    · split at h
      · cases h
      · cases h
  · cases h

/-- C2 (amended): the two empty-meeting guards are separate.  The end
detector (`MeetingEndDetector.wait_for_meeting_end`) terminates for
emptiness only after at least three consecutive empty 5-second polls and
then leaves with no further confirmation re-check; the roster loop
(`participants_loop`) breaks for emptiness only when the initial poll,
the immediate re-extraction, and the fresh re-extraction taken after its
15-second sleep all classify the meeting as empty.  In neither mechanism
does a session terminate on a single poll's observation of emptiness. -/
theorem c2_amended_two_guards :
    (∀ (obs : List PollObs) (n : Nat),
      detectorSteps 0 obs = some (.emptyMeeting, n) → 3 ≤ n) ∧
    (∀ (bot_display_name : String) (env : RosterEnv),
      rosterPath bot_display_name env = .leave →
        (env.poll.length ≤ 1 ∧
          (classifyMain bot_display_name env.poll).1.length = 0) ∧
        rosterRecheckFoundPeople env.recheck = false ∧
        (env.confirm.length ≤ 1 ∧
          (classifyConfirm env.confirm).1.length = 0)) := by
  constructor
  · intro obs n h
    have := detectorSteps_empty_needs_three obs 0 n h
    omega
  · intro bdn env h
    rw [rosterPath] at h
    cases hinit : rosterShouldLeaveInit bdn env.poll with
    | error m => rw [hinit] at h; cases h
    | ok b =>
      cases b with
      | false => rw [hinit] at h; cases h
      | true =>
        rw [hinit] at h
        by_cases hre : rosterRecheckFoundPeople env.recheck = true
        · rw [if_pos hre] at h
          cases h
        · rw [if_neg hre] at h
          cases hfin : rosterFinalShouldLeave env.confirm with
          | error m => rw [hfin] at h; cases h
          | ok b2 =>
            cases b2 with
            | false => rw [hfin] at h; cases h
            | true =>
              refine ⟨rosterShouldLeaveInit_ok_true bdn env.poll hinit,
                Bool.not_eq_true _ ▸ hre,
                rosterFinalShouldLeave_ok_true env.confirm hfin⟩

/-- C2 amended witness: on a trace of three empty polls the detector
consumed three observations (at least three), and a roster iteration
whose three extractions are all empty leaves with the stated facts. -/
theorem c2_amended_witness :
    3 ≤ 3 ∧
      (([] : List RawParticipant).length ≤ 1 ∧
        (classifyMain "Meeting Bot" []).1.length = 0) ∧
      rosterRecheckFoundPeople [] = false ∧
      (([] : List RawParticipant).length ≤ 1 ∧
        (classifyConfirm []).1.length = 0) :=
  ⟨c2_amended_two_guards.1 [emptyPoll, emptyPoll, emptyPoll] 3 rfl,
    c2_amended_two_guards.2 "Meeting Bot"
      { poll := [], recheck := [], confirm := [] } rfl⟩

theorem publish_participant_update_raises :
    publishParticipantUpdate = .nameError "other_participants" := by
  rw [publishParticipantUpdate]
  rw [if_neg]
  intro hres
  exact absurd hres (by decide)

theorem rosterIter_ne_published (bot_display_name : String)
    (env : RosterEnv) :
    rosterIter bot_display_name env ≠ .published := by
  rw [rosterIter]
  cases h : rosterPath bot_display_name env with
  | crash m => simp
  | leave => simp
  | publishNow =>
    rw [publish_participant_update_raises]
    simp

/-- C3: every iteration of the roster loop that reaches the
`participant_update` publish evaluates the undefined name
`other_participants` and therefore raises `NameError`, so the roster loop
never successfully publishes a `participant_update` event and exits after
its first iteration. -/
theorem c3_roster_loop_never_publishes :
    (∀ (bot_display_name : String) (env : RosterEnv),
      rosterIter bot_display_name env ≠ .published) ∧
    (∀ (bot_display_name : String) (envs : List RosterEnv), envs ≠ [] →
      (participantsLoopRun bot_display_name envs).1 = 1) := by
  refine ⟨rosterIter_ne_published, ?_⟩
  intro bdn envs hne
  cases envs with
  | nil => exact absurd rfl hne
  | cons env rest =>
    rw [participantsLoopRun]
    cases h : rosterIter bdn env with
    | published => exact absurd h (rosterIter_ne_published bdn env)
    | leftMeeting => simp [h]
    | nameError m => simp [h]

/-- C3 witness: a roster iteration observing one real participant ends in
the `NameError`, and a one-iteration stream runs exactly one iteration. -/
theorem c3_witness :
    rosterIter "Meeting Bot"
      { poll := [{ name := "Alice", original_name := none,
                   is_bot_flag := false }],
        recheck := [], confirm := [] } ≠ .published ∧
    (participantsLoopRun "Meeting Bot"
      [{ poll := [{ name := "Alice", original_name := none,
                    is_bot_flag := false }],
         recheck := [], confirm := [] }]).1 = 1 :=
  ⟨c3_roster_loop_never_publishes.1 "Meeting Bot" _,
    c3_roster_loop_never_publishes.2 "Meeting Bot" _ (by simp)⟩

theorem validate_meeting_url_fails (platform : Platform)
    (meeting_url : String)
    (h : platformURLMatches platform meeting_url = false) :
    ∃ e, _validate_meeting_url platform meeting_url = .error e := by
  cases platform with
  | teams =>
    refine ⟨"Invalid Teams meeting URL", ?_⟩
    rw [_validate_meeting_url, if_pos]
    rw [platformURLMatches] at h
    simp [h]
  | gmeet =>
    refine ⟨"Invalid Google Meet URL", ?_⟩
    rw [platformURLMatches] at h
    rw [_validate_meeting_url, if_neg, if_pos]
    · simp [h]
    · simp

/-- C5: for every admission request whose meeting URL does not match the
platform-specific host pattern, `enqueue_session` fails with the
invalid-URL `ValueError` and leaves the session table, queue and event
stream unchanged (no `Session` is created, emitted, or enqueued), and the
HTTP handler surfaces it as status 400 with code `INVALID_MEETING_URL`. -/
theorem c5_invalid_url_rejected (st : SMState)
    (fresh_session_id meeting_id : String) (platform : Platform)
    (meeting_url : String)
    (h : platformURLMatches platform meeting_url = false) :
    (enqueue_session st fresh_session_id meeting_id platform
        meeting_url).1.isSome = true ∧
    (enqueue_session st fresh_session_id meeting_id platform
        meeting_url).2 = st ∧
    (join_meeting st fresh_session_id meeting_id platform meeting_url).1 =
      { status := 400, code := "INVALID_MEETING_URL", session_id := none } ∧
    (join_meeting st fresh_session_id meeting_id platform meeting_url).2 = st := by
  obtain ⟨e, he⟩ := validate_meeting_url_fails platform meeting_url h
  have henq : enqueue_session st fresh_session_id meeting_id platform
      meeting_url = (some e, st) := by
    rw [enqueue_session, he]
  refine ⟨?_, ?_, ?_, ?_⟩
  · rw [henq]; rfl
  · rw [henq]
  · rw [join_meeting, henq]
  · rw [join_meeting, henq]

/-- C5 witness: the admission request of scenario S2 (`https://example.com/bad`
on Google Meet) is rejected with HTTP 400 and an unchanged empty state. -/
theorem c5_witness :
    (enqueue_session { sessions := [], queue := [], published := [] }
        "sid1" "m1" .gmeet "https://example.com/bad").1.isSome = true ∧
    (enqueue_session { sessions := [], queue := [], published := [] }
        "sid1" "m1" .gmeet "https://example.com/bad").2 =
      { sessions := [], queue := [], published := [] } ∧
    (join_meeting { sessions := [], queue := [], published := [] }
        "sid1" "m1" .gmeet "https://example.com/bad").1 =
      { status := 400, code := "INVALID_MEETING_URL", session_id := none } ∧
    (join_meeting { sessions := [], queue := [], published := [] }
        "sid1" "m1" .gmeet "https://example.com/bad").2 =
      { sessions := [], queue := [], published := [] } :=
  c5_invalid_url_rejected { sessions := [], queue := [], published := [] }
    "sid1" "m1" .gmeet "https://example.com/bad" (by decide)

theorem countP_middle (p : SchedSession → Bool) (pre post : List SchedSession)
    (x : SchedSession) :
    (pre ++ x :: post).countP p =
      pre.countP p + (if p x then 1 else 0) + post.countP p := by
  rw [List.countP_append, List.countP_cons]
  omega

theorem schedInv_of_reachable {maxConcurrent : Nat} {st : SchedState}
    (h : SchedReachable maxConcurrent st) : schedInv maxConcurrent st := by
  induction h with
  | init =>
    constructor
    · simp [schedInit]
    · intro s hs
      simp [schedInit] at hs
  | step hreach hstep ih =>
    obtain ⟨ih1, ih2⟩ := ih
    cases hstep with
    | admitSession st =>
      constructor
      · rw [List.countP_append]
        simp
        omega
      · intro s hs hact
        rw [List.mem_append] at hs
        rcases hs with hs | hs
        · exact ih2 s hs hact
        · simp at hs
          rw [hs] at hact
          simp [isActiveSession] at hact
    | dispatch pre post a =>
      constructor
      · rw [countP_middle] at ih1 ⊢
        simp at ih1 ⊢
        omega
      · intro s hs hact
        simp only [List.mem_append, List.mem_cons] at hs
        rcases hs with hs | hs | hs
        · exact ih2 s (by simp [hs]) hact
        · rw [hs]
        · exact ih2 s (by simp [hs]) hact
    | startJoining pre post a =>
      constructor
      · rw [countP_middle] at ih1 ⊢
        simp at ih1 ⊢
        omega
      · intro s hs hact
        simp only [List.mem_append, List.mem_cons] at hs
        rcases hs with hs | hs | hs
        · exact ih2 s (by simp [hs]) hact
        · rw [hs]
        · exact ih2 s (by simp [hs]) hact
    | joined pre post a =>
      constructor
      · rw [countP_middle] at ih1 ⊢
        simp at ih1 ⊢
        omega
      · intro s hs hact
        simp only [List.mem_append, List.mem_cons] at hs
        rcases hs with hs | hs | hs
        · exact ih2 s (by simp [hs]) hact
        · rw [hs]
        · exact ih2 s (by simp [hs]) hact
    | endSession pre post a =>
      constructor
      · rw [countP_middle] at ih1 ⊢
        simp at ih1 ⊢
        omega
      · intro s hs hact
        simp only [List.mem_append, List.mem_cons] at hs
        rcases hs with hs | hs | hs
        · exact ih2 s (by simp [hs]) hact
        · rw [hs]
        · exact ih2 s (by simp [hs]) hact
    | failSession pre post s0 a =>
      constructor
      · rw [countP_middle] at ih1 ⊢
        simp at ih1 ⊢
        omega
      · intro s hs hact
        simp only [List.mem_append, List.mem_cons] at hs
        rcases hs with hs | hs | hs
        · exact ih2 s (by simp [hs]) hact
        · rw [hs]
        · exact ih2 s (by simp [hs]) hact
    | releasePermit pre post s0 a hterm =>
      constructor
      · rw [countP_middle] at ih1 ⊢
        simp at ih1 ⊢
        omega
      · intro s hs hact
        simp only [List.mem_append, List.mem_cons] at hs
        rcases hs with hs | hs | hs
        · exact ih2 s (by simp [hs]) hact
        · rw [hs] at hact
          rcases hterm with h0 | h0 <;>
            simp [isActiveSession, h0] at hact
        · exact ih2 s (by simp [hs]) hact

/-- C6: for all schedules of admissions and session completions, the
number of sessions whose status is `joining` or `in_meeting` never
exceeds the configured `max_concurrent_sessions`: the dispatcher acquires
a counting-semaphore permit before spawning each session runner and
releases it only when the runner reaches a terminal state. -/
theorem c6_concurrency_bound {maxConcurrent : Nat} {st : SchedState}
    (h : SchedReachable maxConcurrent st) :
    activeCount st ≤ maxConcurrent := by
  obtain ⟨h1, h2⟩ := schedInv_of_reachable h
  calc activeCount st
      ≤ st.sessions.countP (fun s => s.holdsPermit) :=
        List.countP_mono_left h2
    _ ≤ maxConcurrent := by omega

/-- C6 witness: after admitting, dispatching and starting one session
under a bound of 2, the reachable state has one active session, within
the bound. -/
theorem c6_witness :
    activeCount ⟨[⟨SessionStatus.joining, true⟩], 1⟩ ≤ 2 :=
  c6_concurrency_bound
    (SchedReachable.step
      (SchedReachable.step
        (SchedReachable.step SchedReachable.init (SchedStep.admitSession _))
        (SchedStep.dispatch [] [] 1))
      (SchedStep.startJoining [] [] 1))

/-- C7: evaluating `allocate_profile` on a failing schedule.  From a state
with no profile directories on disk, two successive allocations for the
distinct sessions `s1` and `s2` both return `google_main` (the early
return of `get_profile_status` reports a missing directory as available
regardless of `_active_sessions`, and no path of `allocate_profile` takes
the per-profile lock `_get_lock`, which is never called anywhere), so two
sessions hold the same profile simultaneously. -/
theorem c7_profile_double_allocation :
    ((allocate_profile { dirs := [], active := [] } "s1" none
        "google_main").2 = "google_main") ∧
    ((allocate_profile
        (allocate_profile { dirs := [], active := [] } "s1" none
          "google_main").1 "s2" none "google_main").2 = "google_main") ∧
    ((allocate_profile
        (allocate_profile { dirs := [], active := [] } "s1" none
          "google_main").1 "s2" none "google_main").1.active =
      [("s1", "google_main"), ("s2", "google_main")]) ∧
    (profileHolders
        (allocate_profile
          (allocate_profile { dirs := [], active := [] } "s1" none
            "google_main").1 "s2" none "google_main").1 "google_main" = 2) :=
  ⟨rfl, rfl, rfl, rfl⟩

end MeetingBot
